import Mathlib

/-!
Verification of the SimpleLogger repository (src/SimpleLogger/SimpleLogger.h).

The C++ class `SimpleLogger` is a short-lived line-builder object: its
constructor takes a shared lock on a process-wide registry (static members
`out_stream_`, `out_stream_valid_`, `prefix_function_list_`), allocates a
`std::wosyncstream` bound to the registry sink, and writes the configured
prefixes, the severity tag from `severity_map`, and a literal ": " into it;
`operator<<` appends values into that synchronized stream; the destructor
optionally appends a newline and then destroys the synchronized stream,
which transfers its accumulated buffer to the underlying sink as one unit.
Static setters `SetOstream` / `SetPrefixList` reconfigure the registry under
an exclusive lock.

This file is a shallow embedding of that code:
- exceptions become `Except Exc`;
- the `std::wosyncstream` becomes the `Option String` buffer carried by a
  `SimpleLogger` value, and its atomic transfer-on-destruction becomes an
  explicit small-step trace semantics (`SyncState`, `stepSync`) used for the
  line-atomicity property;
- the registry becomes the `Registry` structure, with `SetOstream` and
  `SetPrefixList` translated field by field;
- sink / lifetime interactions of `SetOstream` with live line builders are
  modelled by a second trace semantics (`ProcState`, `stepSetup`).
-/

/-- A C++ exception deriving from std::exception, identified by its what() text. -/
structure Exc where
  what : String
deriving Repr, DecidableEq

/-- Signature of a prefix generator (C++ `using PrefixFunction =
std::function<std::wstring()>`). A generator is invoked fresh at every line
construction; we model the ambient world it may read (clock, counters) as a
`Nat` argument supplied at invocation time, and allow the call to throw. -/
abbrev PrefixFunction := Nat → Except Exc String

/-- Modelled from the spec: formatting an arbitrary insertable value through
the iostream inserter for its type is external to this repository; a value is
modelled by the text its inserter produces, or a formatting failure. -/
structure Value where
  format : Except Exc String

/-- The static registry members of class SimpleLogger:
`prefix_function_list_`, `out_stream_` (a possibly-null owned stream, of which
we retain only its health bit as observed by `good()`), `out_stream_valid_`. -/
structure Registry where
  prefix_function_list_ : List PrefixFunction
  out_stream_ : Option Bool
  out_stream_valid_ : Bool

/-- Initial values of the inline static members: empty list, null stream,
validity false. -/
def initRegistry : Registry :=
  { prefix_function_list_ := [], out_stream_ := none, out_stream_valid_ := false }

/-- SimpleLogger::SetOstream: under the exclusive lock, move the new stream in
(the old one is destroyed) and recompute
`out_stream_valid_ = out_stream_.get() != nullptr && (*out_stream_.get()).good()`. -/
def SetOstream (reg : Registry) (out_stream : Option Bool) : Registry :=
  { reg with
    out_stream_ := out_stream
    out_stream_valid_ :=
      match out_stream with
      | none => false
      | some good => good }

/-- SimpleLogger::SetPrefixList: under the exclusive lock, copy the new list
into `prefix_function_list_`. -/
def SetPrefixList (reg : Registry) (prefix_list : List PrefixFunction) : Registry :=
  { reg with prefix_function_list_ := prefix_list }

/-- The fixed severity table (C++ `severity_map`), indices 0..4. -/
def severity_map : List String := ["DEBUG", "INFO", "WARNING", "ERROR", "CRITICAL"]

/-- Bounds-checked lookup `severity_map.at(i)`: `std::array::at` throws
std::out_of_range when the index is not below the size. -/
def severityAt (i : Nat) : Except Exc String :=
  match severity_map.get? i with
  | some s => Except.ok s
  | none => Except.error ⟨"array::at: out of range"⟩

/-- The constructor loop `for (const auto& p : prefix_function_list_)
*out_sync_stream_ << p();` — generators run in registration order at the
construction-time world; on a throw the characters already inserted stay in
the buffer and the exception propagates to the enclosing catch. -/
def writePrefixes (world : Nat) : List PrefixFunction → String → String × Option Exc
  | [], buf => (buf, none)
  | p :: rest, buf =>
    match p world with
    | Except.ok s => writePrefixes world rest (buf ++ s)
    | Except.error e => (buf, some e)

/-- Per-instance state of a SimpleLogger object: `newline_`, the owned
synchronized stream `out_sync_stream_` (null pointer = `none`; otherwise the
text accumulated in its buffer), and `out_sync_stream_valid_`. -/
structure SimpleLogger where
  newline_ : Bool
  out_sync_stream_ : Option String
  out_sync_stream_valid_ : Bool
deriving Repr, DecidableEq

/-- Text printed to std::cerr by the constructor catch block. -/
def cerrLine (e : Exc) : String := "caught exception: " ++ e.what

/-- The SimpleLogger constructor. Under a shared lock it tests
`out_stream_valid_`; if set, inside a try block it allocates the
`std::wosyncstream` (`alloc` is the allocation outcome), sets
`out_sync_stream_valid_ = true`, runs the prefix generators, and writes
`severity_map.at(severity)` followed by ": ". Any std::exception from the try
body is caught and reported on std::cerr. Returns the constructed object and
the lines printed to std::cerr. -/
def SimpleLogger.construct (reg : Registry) (world : Nat) (alloc : Except Exc Unit)
    (severity : Nat) (newline : Bool) : SimpleLogger × List String :=
  if reg.out_stream_valid_ then
    match alloc with
    | Except.error e =>
      (⟨newline, none, false⟩, [cerrLine e])
    | Except.ok _ =>
      match writePrefixes world reg.prefix_function_list_ "" with
      | (buf, some e) => (⟨newline, some buf, true⟩, [cerrLine e])
      | (buf, none) =>
        match severityAt severity with
        | Except.error e => (⟨newline, some buf, true⟩, [cerrLine e])
        | Except.ok tag => (⟨newline, some (buf ++ tag ++ ": "), true⟩, [])
  else
    (⟨newline, none, false⟩, [])

/-- SimpleLogger::operator<< : if `out_sync_stream_valid_`, insert the value
into the synchronized stream (a formatting failure inserts nothing and is
swallowed — the operator is noexcept); return *this. -/
def SimpleLogger.opShl (b : SimpleLogger) (v : Value) : SimpleLogger :=
  if b.out_sync_stream_valid_ then
    match v.format with
    | Except.ok s =>
      match b.out_sync_stream_ with
      | some buf => ⟨b.newline_, some (buf ++ s), b.out_sync_stream_valid_⟩
      | none => b
    | Except.error _ => b
  else b

/-- A chained sequence of << calls on one logger object. -/
def applyAppends (b : SimpleLogger) : List Value → SimpleLogger
  | [] => b
  | v :: rest => applyAppends (b.opShl v) rest

/-- The SimpleLogger destructor, observed through what reaches the underlying
sink: under a shared lock, if `newline_ && out_sync_stream_valid_` it inserts
std::endl, then `out_sync_stream_.reset()` destroys the synchronized stream,
transferring its whole buffer to the sink; a null stream transfers nothing. -/
def SimpleLogger.destructEmit (b : SimpleLogger) : Option String :=
  match b.out_sync_stream_ with
  | none => none
  | some buf =>
    if b.newline_ && b.out_sync_stream_valid_ then some (buf ++ "\n") else some buf

/-- Text produced by the inserter of one value: its formatted text, or nothing
on a formatting failure. -/
def fmtOr (v : Value) : String :=
  match v.format with
  | Except.ok s => s
  | Except.error _ => ""

/-- Concatenation of the texts of a list of appended values. -/
def renderedText : List Value → String
  | [] => ""
  | v :: rest => fmtOr v ++ renderedText rest

/-- Concatenation of a list of strings. -/
def concatList : List String → String
  | [] => ""
  | s :: rest => s ++ concatList rest

/-!
Trace semantics of the synchronized adapter. Modelled from the spec: the
adapter (`std::wosyncstream`, standard library, outside this repository)
gives every line builder a private buffer; insertions go into that buffer,
and destroying the adapter transfers the whole buffer to the shared sink as
one indivisible unit. Thread interleaving is modelled by an arbitrary order
of events from different builders (identified by a `Nat`). -/

/-- One event observable at the shared sink: a builder inserts text into its
synchronized stream (`operator<<` / the constructor writes), or a builder is
destroyed and its synchronized stream transfers its buffer (`reset()`). -/
inductive SyncAction where
  | append (tid : Nat) (s : String)
  | emit (tid : Nat)
deriving Repr, DecidableEq

/-- Shared-sink state: text already in the sink, plus each builder's private
synchronized-stream buffer. -/
structure SyncState where
  sink : String
  buffers : Nat → String

/-- Effect of one event. An append only touches the appending builder's own
buffer; an emit moves that builder's whole buffer into the sink at once. -/
def stepSync (σ : SyncState) : SyncAction → SyncState
  | SyncAction.append t s =>
    { σ with buffers := fun u => if u = t then σ.buffers u ++ s else σ.buffers u }
  | SyncAction.emit t =>
    { sink := σ.sink ++ σ.buffers t
      buffers := fun u => if u = t then "" else σ.buffers u }

/-- Run a whole interleaved trace. -/
def runSync (σ : SyncState) : List SyncAction → SyncState
  | [] => σ
  | a :: rest => runSync (stepSync σ a) rest

/-- Process start: empty sink, all buffers empty. -/
def initialSync : SyncState := { sink := "", buffers := fun _ => "" }

/-- The lines transferred to the sink along a trace, in transfer order. -/
def emittedLines (bufs : Nat → String) : List SyncAction → List String
  | [] => []
  | SyncAction.append t s :: rest =>
    emittedLines (fun u => if u = t then bufs u ++ s else bufs u) rest
  | SyncAction.emit t :: rest =>
    bufs t :: emittedLines (fun u => if u = t then "" else bufs u) rest

/-- Texts appended by builder `t` along a trace, in order. -/
def appendsOf (t : Nat) : List SyncAction → List String
  | [] => []
  | SyncAction.append u s :: rest =>
    if u = t then s :: appendsOf t rest else appendsOf t rest
  | SyncAction.emit _ :: rest => appendsOf t rest

/-- The complete text of builder `t` in a trace: the concatenation of
everything it appended (prefixes, tag, values, terminator). -/
def lineOf (t : Nat) (tr : List SyncAction) : String := concatList (appendsOf t tr)

/-- Well-formed builder lifecycle relative to a set of already-destroyed
builders: a builder neither appends nor is destroyed after its destruction
(each SimpleLogger is a scoped object, destroyed once, appends before). -/
def wfTrace (emitted : Nat → Bool) : List SyncAction → Bool
  | [] => true
  | SyncAction.append t _ :: rest => !emitted t && wfTrace emitted rest
  | SyncAction.emit t :: rest =>
    !emitted t && wfTrace (fun u => if u = t then true else emitted u) rest

/-!
Trace semantics of sink reconfiguration against live line builders. This
models the object lifetimes in SimpleLogger.h: `SetOstream` move-assigns
`out_stream_` under the exclusive lock, destroying the previously owned
stream object at that moment; a constructor binds a `std::wosyncstream` to
the then-current stream under a shared lock; between its constructor and its
destructor a logger holds no lock, so a `SetOstream` call can run in that
window. Sink objects are numbered in installation order. -/

/-- One process-level event: install a sink (healthy or not), finish running
a logger constructor on some thread, or run that logger's destructor. -/
inductive SetupAction where
  | setOstream (healthy : Bool)
  | constructLogger (b : Nat)
  | destructLogger (b : Nat)
deriving Repr, DecidableEq

/-- Process state for the lifetime model: the id the next installed sink will
get, the id owned by `out_stream_` now, `out_stream_valid_`, the ids of sink
objects already destroyed, the live synchronized handles (logger id, sink id),
and a flag recording whether some sink was ever destroyed while a live handle
was still bound to it. -/
structure ProcState where
  nextSinkId : Nat
  current : Option Nat
  currentValid : Bool
  destroyed : List Nat
  handles : List (Nat × Nat)
  destroyedWithLiveHandle : Bool
deriving Repr, DecidableEq

/-- Process start: no sink installed, no loggers. -/
def initialProc : ProcState :=
  { nextSinkId := 0, current := none, currentValid := false, destroyed := []
    handles := [], destroyedWithLiveHandle := false }

/-- Effect of one process-level event. `setOstream` destroys the old stream
object immediately (unique_ptr move assignment) whatever handles exist;
`constructLogger` binds a handle only when the registry is valid;
`destructLogger` releases the logger's handle. -/
def stepSetup (π : ProcState) : SetupAction → ProcState
  | SetupAction.setOstream healthy =>
    { nextSinkId := π.nextSinkId + 1
      current := some π.nextSinkId
      currentValid := healthy
      destroyed :=
        match π.current with
        | some old => old :: π.destroyed
        | none => π.destroyed
      handles := π.handles
      destroyedWithLiveHandle :=
        π.destroyedWithLiveHandle ||
          match π.current with
          | some old => π.handles.any fun h => h.2 = old
          | none => false }
  | SetupAction.constructLogger b =>
    match π.current, π.currentValid with
    | some sid, true => { π with handles := (b, sid) :: π.handles }
    | _, _ => π
  | SetupAction.destructLogger b =>
    { π with handles := π.handles.filter fun h => h.1 ≠ b }

/-- Run a whole process-level trace. -/
def runSetup (π : ProcState) : List SetupAction → ProcState
  | [] => π
  | a :: rest => runSetup (stepSetup π a) rest

/-!
Helper lemmas.
-/

/-- Splitting a concatenation around a distinguished element. -/
theorem concatList_extract (l1 : List String) (x : String) (l2 : List String) :
    concatList (l1 ++ x :: l2) = concatList l1 ++ (x ++ concatList l2) := by
  induction l1 with
  | nil => simp [concatList, String.empty_append]
  | cons s rest ih => simp [concatList, ih, String.append_assoc]

/-- The sink after a trace is what it held before plus the transferred lines,
in transfer order. -/
theorem runSync_sink (tr : List SyncAction) : ∀ σ : SyncState,
    (runSync σ tr).sink = σ.sink ++ concatList (emittedLines σ.buffers tr) := by
  induction tr with
  | nil => intro σ; simp [runSync, emittedLines, concatList, String.append_empty]
  | cons a rest ih =>
    intro σ
    cases a with
    | append t s =>
      rw [show runSync σ (SyncAction.append t s :: rest) =
        runSync (stepSync σ (SyncAction.append t s)) rest from rfl, ih]
      simp [stepSync, emittedLines]
    | emit t =>
      rw [show runSync σ (SyncAction.emit t :: rest) =
        runSync (stepSync σ (SyncAction.emit t)) rest from rfl, ih]
      simp [stepSync, emittedLines, concatList, String.append_assoc]

/-- A builder already destroyed appends nothing further in a well-formed
trace. -/
theorem appendsOf_emitted (tr : List SyncAction) : ∀ (emitted : Nat → Bool) (t : Nat),
    wfTrace emitted tr = true → emitted t = true → appendsOf t tr = [] := by
  induction tr with
  | nil => intro emitted t _ _; rfl
  | cons a rest ih =>
    intro emitted t hwf ht
    cases a with
    | append u s =>
      simp only [wfTrace, Bool.and_eq_true, Bool.not_eq_true'] at hwf
      by_cases hu : u = t
      · subst hu; simp [hwf.1] at ht
      · simp [appendsOf, hu, ih emitted t hwf.2 ht]
    | emit u =>
      simp only [wfTrace, Bool.and_eq_true, Bool.not_eq_true'] at hwf
      have ht' : (fun w => if w = u then true else emitted w) t = true := by
        by_cases hu : t = u <;> simp [hu, ht]
      simp [appendsOf, ih _ t hwf.2 ht']

/-- In a well-formed trace, the line transferred for a builder that gets
destroyed is its starting buffer followed by everything it appended. -/
theorem emittedLines_extract (tr : List SyncAction) :
    ∀ (bufs : Nat → String) (emitted : Nat → Bool) (t : Nat),
    wfTrace emitted tr = true → emitted t = false → SyncAction.emit t ∈ tr →
    ∃ pre post, emittedLines bufs tr =
      pre ++ (bufs t ++ concatList (appendsOf t tr)) :: post := by
  induction tr with
  | nil => intro _ _ _ _ _ hmem; cases hmem
  | cons a rest ih =>
    intro bufs emitted t hwf ht hmem
    cases a with
    | append u s =>
      simp only [wfTrace, Bool.and_eq_true, Bool.not_eq_true'] at hwf
      have hmem' : SyncAction.emit t ∈ rest := by
        rcases List.mem_cons.mp hmem with h | h
        · exact SyncAction.noConfusion h
        · exact h
      obtain ⟨pre, post, hp⟩ :=
        ih (fun w => if w = u then bufs w ++ s else bufs w) emitted t hwf.2 ht hmem'
      refine ⟨pre, post, ?_⟩
      show emittedLines (fun w => if w = u then bufs w ++ s else bufs w) rest = _
      rw [hp]
      by_cases hu : u = t
      · subst hu
        simp [appendsOf, concatList, String.append_assoc]
      · have hut : ¬t = u := fun h => hu h.symm
        simp [appendsOf, hu, hut]
    | emit u =>
      simp only [wfTrace, Bool.and_eq_true, Bool.not_eq_true'] at hwf
      by_cases hu : t = u
      · subst hu
        have hap : appendsOf t rest = [] :=
          appendsOf_emitted rest (fun w => if w = t then true else emitted w) t
            hwf.2 (by simp)
        refine ⟨[], emittedLines (fun w => if w = t then "" else bufs w) rest, ?_⟩
        simp [emittedLines, appendsOf, hap, concatList, String.append_empty]
      · have hmem' : SyncAction.emit t ∈ rest := by
          rcases List.mem_cons.mp hmem with h | h
          · exact absurd (by injection h) hu
          · exact h
        have ht' : (fun w => if w = u then true else emitted w) t = false := by
          simp [hu, ht]
        obtain ⟨pre, post, hp⟩ :=
          ih (fun w => if w = u then "" else bufs w)
            (fun w => if w = u then true else emitted w) t hwf.2 ht' hmem'
        refine ⟨bufs u :: pre, post, ?_⟩
        show bufs u :: emittedLines (fun w => if w = u then "" else bufs w) rest = _
        rw [hp]
        simp [appendsOf, hu]

/-- Appending to a builder with a valid handle accumulates the rendered texts
in its synchronized buffer. -/
theorem applyAppends_valid (values : List Value) : ∀ (nl : Bool) (buf : String),
    applyAppends ⟨nl, some buf, true⟩ values =
      ⟨nl, some (buf ++ renderedText values), true⟩ := by
  induction values with
  | nil => intro nl buf; simp [applyAppends, renderedText, String.append_empty]
  | cons v rest ih =>
    intro nl buf
    have hstep : SimpleLogger.opShl ⟨nl, some buf, true⟩ v =
        ⟨nl, some (buf ++ fmtOr v), true⟩ := by
      cases hv : v.format with
      | ok s => simp [SimpleLogger.opShl, fmtOr, hv]
      | error e => simp [SimpleLogger.opShl, fmtOr, hv, String.append_empty]
    show applyAppends (SimpleLogger.opShl ⟨nl, some buf, true⟩ v) rest = _
    rw [hstep, ih]
    simp [renderedText, String.append_assoc]

/-- Appending to a builder whose handle flag is unset changes nothing. -/
theorem applyAppends_invalid (values : List Value) : ∀ b : SimpleLogger,
    b.out_sync_stream_valid_ = false → applyAppends b values = b := by
  induction values with
  | nil => intro b _; rfl
  | cons v rest ih =>
    intro b hb
    show applyAppends (b.opShl v) rest = b
    rw [show b.opShl v = b from by simp [SimpleLogger.opShl, hb]]
    exact ih b hb

/-- When every generator returns, the constructor loop appends their outputs
in registration order and no exception escapes it. -/
theorem writePrefixes_ok (world : Nat) (ps : List PrefixFunction) : ∀ (outs : List String),
    ps.map (fun p => p world) = outs.map Except.ok →
    ∀ buf, writePrefixes world ps buf = (buf ++ concatList outs, none) := by
  induction ps with
  | nil =>
    intro outs h buf
    cases outs with
    | nil => simp [writePrefixes, concatList, String.append_empty]
    | cons _ _ => simp at h
  | cons p rest ih =>
    intro outs h buf
    cases outs with
    | nil => simp at h
    | cons o os =>
      simp only [List.map, List.cons.injEq] at h
      simp only [writePrefixes, h.1]
      rw [ih os h.2]
      simp [concatList, String.append_assoc]

/-!
Claim theorems.
-/

/-- Claim C1: for every set of line builders running concurrently against the
same sink — modelled as a well-formed interleaved trace of appends into
per-builder synchronized adapters and one buffer transfer per destroyed
builder — the complete text each builder produces (prefixes, severity tag,
appended values, optional terminator: everything it appended) appears
contiguously in the final sink content, never interleaved
character-by-character with another builder's output. -/
theorem line_atomicity (tr : List SyncAction) (t : Nat)
    (hwf : wfTrace (fun _ => false) tr = true) (hmem : SyncAction.emit t ∈ tr) :
    ∃ pre post, (runSync initialSync tr).sink = pre ++ lineOf t tr ++ post := by
  obtain ⟨pre, post, hp⟩ :=
    emittedLines_extract tr (fun _ => "") (fun _ => false) t hwf rfl hmem
  refine ⟨concatList pre, concatList post, ?_⟩
  rw [runSync_sink tr initialSync]
  show "" ++ concatList (emittedLines (fun _ => "") tr) = _
  rw [hp, concatList_extract]
  simp [lineOf, String.empty_append, String.append_assoc]

/-- Witness for C1 on a concrete interleaved trace: builder 0 appends "A",
builder 1 appends "x", builder 0 appends "B", then both are destroyed; the
sink contains builder 0's full line "AB" contiguously. -/
theorem line_atomicity_witness :
    wfTrace (fun _ => false)
      [SyncAction.append 0 "A", SyncAction.append 1 "x", SyncAction.append 0 "B",
        SyncAction.emit 1, SyncAction.emit 0] = true ∧
    SyncAction.emit 0 ∈
      [SyncAction.append 0 "A", SyncAction.append 1 "x", SyncAction.append 0 "B",
        SyncAction.emit 1, SyncAction.emit 0] ∧
    ∃ pre post,
      (runSync initialSync
        [SyncAction.append 0 "A", SyncAction.append 1 "x", SyncAction.append 0 "B",
          SyncAction.emit 1, SyncAction.emit 0]).sink =
      pre ++ lineOf 0
        [SyncAction.append 0 "A", SyncAction.append 1 "x", SyncAction.append 0 "B",
          SyncAction.emit 1, SyncAction.emit 0] ++ post :=
  ⟨by decide, by decide,
    line_atomicity
      [SyncAction.append 0 "A", SyncAction.append 1 "x", SyncAction.append 0 "B",
        SyncAction.emit 1, SyncAction.emit 0] 0 (by decide) (by decide)⟩

/-- Claim C2: constructing a line builder with a valid sink and an in-range
severity writes, in order, each installed generator's output — each generator
invoked fresh at the construction-time world, in registration order — then
the severity tag from the fixed table at index s, then the literal ": ". -/
theorem constructor_writes_prefixes_tag_separator
    (reg : Registry) (world : Nat) (s : Nat) (nl : Bool) (outs : List String)
    (hvalid : reg.out_stream_valid_ = true)
    (hps : reg.prefix_function_list_.map (fun p => p world) = outs.map Except.ok)
    (hs : s < 5) :
    severity_map = ["DEBUG", "INFO", "WARNING", "ERROR", "CRITICAL"] ∧
    SimpleLogger.construct reg world (Except.ok ()) s nl =
      (⟨nl, some (concatList outs ++ severity_map.getD s "" ++ ": "), true⟩, []) := by
  refine ⟨rfl, ?_⟩
  have hw := writePrefixes_ok world reg.prefix_function_list_ outs hps ""
  have htag : severityAt s = Except.ok (severity_map.getD s "") := by
    interval_cases s <;> rfl
  simp [SimpleLogger.construct, hvalid, hw, htag, String.empty_append]

/-- Witness for C2: two generators, the second reading the construction-time
world, severity 2; the buffer is their outputs followed by "WARNING" and ": ",
and nothing is printed to std::cerr. -/
theorem constructor_writes_prefixes_tag_separator_witness :
    ({ prefix_function_list_ :=
        [fun _ => Except.ok "A", fun w => Except.ok (if w = 7 then "T7" else "T")],
       out_stream_ := some true, out_stream_valid_ := true } : Registry).out_stream_valid_
      = true ∧
    List.map (fun p => p 7)
      ([fun _ => Except.ok "A", fun w => Except.ok (if w = 7 then "T7" else "T")] :
        List PrefixFunction) =
      List.map Except.ok ["A", "T7"] ∧
    (2 : Nat) < 5 ∧
    SimpleLogger.construct
      { prefix_function_list_ :=
          [fun _ => Except.ok "A", fun w => Except.ok (if w = 7 then "T7" else "T")],
        out_stream_ := some true, out_stream_valid_ := true } 7 (Except.ok ()) 2 true =
      (⟨true, some (concatList ["A", "T7"] ++ severity_map.getD 2 "" ++ ": "), true⟩, []) :=
  ⟨rfl, rfl, by decide,
    (constructor_writes_prefixes_tag_separator
      { prefix_function_list_ :=
          [fun _ => Except.ok "A", fun w => Except.ok (if w = 7 then "T7" else "T")],
        out_stream_ := some true, out_stream_valid_ := true } 7 2 true ["A", "T7"]
      rfl rfl (by decide)).2⟩

/-- Claim C4: for a severity outside 0..4 with a valid sink, the lookup
`severity_map.at(severity)` is bounds-checked and throws; the exception is
caught by the constructor, which returns normally with a diagnostic on
std::cerr, and the line degrades to having no severity tag (and no ": ")
in its buffer — no crash, no out-of-bounds access. -/
theorem out_of_range_severity_caught
    (reg : Registry) (world : Nat) (s : Nat) (nl : Bool) (buf : String)
    (hvalid : reg.out_stream_valid_ = true)
    (hw : writePrefixes world reg.prefix_function_list_ "" = (buf, none))
    (hs : 5 ≤ s) :
    (∃ e, severityAt s = Except.error e) ∧
    SimpleLogger.construct reg world (Except.ok ()) s nl =
      (⟨nl, some buf, true⟩, [cerrLine ⟨"array::at: out of range"⟩]) := by
  have hat : severityAt s = Except.error ⟨"array::at: out of range"⟩ := by
    have hnone : severity_map.get? s = none := by
      rw [List.get?_eq_none]
      simpa [severity_map] using hs
    unfold severityAt
    rw [hnone]
  refine ⟨⟨_, hat⟩, ?_⟩
  simp [SimpleLogger.construct, hvalid, hw, hat]

/-- Witness for C4 at severity 5 (first out-of-range value) with no
generators installed. -/
theorem out_of_range_severity_caught_witness :
    ({ prefix_function_list_ := [], out_stream_ := some true,
       out_stream_valid_ := true } : Registry).out_stream_valid_ = true ∧
    writePrefixes 0
      ({ prefix_function_list_ := [], out_stream_ := some true,
         out_stream_valid_ := true } : Registry).prefix_function_list_ "" = ("", none) ∧
    (5 : Nat) ≤ 5 ∧
    ((∃ e, severityAt 5 = Except.error e) ∧
      SimpleLogger.construct
        { prefix_function_list_ := [], out_stream_ := some true,
          out_stream_valid_ := true } 0 (Except.ok ()) 5 true =
        (⟨true, some "", true⟩, [cerrLine ⟨"array::at: out of range"⟩])) :=
  ⟨rfl, rfl, by decide,
    out_of_range_severity_caught
      { prefix_function_list_ := [], out_stream_ := some true,
        out_stream_valid_ := true } 0 5 true "" rfl rfl (by decide)⟩

/-- Claim C5: with no sink installed or a sink that was unhealthy when
installed (`out_stream_valid_` false), construction acquires no synchronized
handle and prints nothing, every append is a no-op returning the builder, and
destruction transfers nothing to any sink; no operation throws. -/
theorem no_sink_no_op
    (reg : Registry) (world : Nat) (alloc : Except Exc Unit) (s : Nat) (nl : Bool)
    (values : List Value)
    (h : reg.out_stream_valid_ = false) :
    SimpleLogger.construct reg world alloc s nl = (⟨nl, none, false⟩, []) ∧
    applyAppends ⟨nl, none, false⟩ values = ⟨nl, none, false⟩ ∧
    SimpleLogger.destructEmit (applyAppends ⟨nl, none, false⟩ values) = none := by
  have h1 : SimpleLogger.construct reg world alloc s nl = (⟨nl, none, false⟩, []) := by
    simp [SimpleLogger.construct, h]
  have h2 := applyAppends_invalid values ⟨nl, none, false⟩ rfl
  exact ⟨h1, h2, by rw [h2]; rfl⟩

/-- Witness for C5: the sink installed by SetOstream reports unhealthy, so
the registry is invalid; a construct / append / destruct sequence produces
nothing. -/
theorem no_sink_no_op_witness :
    (SetOstream initRegistry (some false)).out_stream_valid_ = false ∧
    (SimpleLogger.construct (SetOstream initRegistry (some false)) 0 (Except.ok ()) 1 true =
        (⟨true, none, false⟩, []) ∧
      applyAppends ⟨true, none, false⟩ [⟨Except.ok "x"⟩] = ⟨true, none, false⟩ ∧
      SimpleLogger.destructEmit (applyAppends ⟨true, none, false⟩ [⟨Except.ok "x"⟩]) = none) :=
  ⟨rfl,
    no_sink_no_op (SetOstream initRegistry (some false)) 0 (Except.ok ()) 1 true
      [⟨Except.ok "x"⟩] rfl⟩

/-- Claim C6: for a line builder with a valid handle, destruction after any
sequence of appends transfers exactly the accumulated text when constructed
with newline = false, and exactly the accumulated text followed by one line
terminator — after all appended values — when constructed with the default
newline = true; destruction is the sole trigger, whatever ends the scope. -/
theorem newline_toggle (buf : String) (values : List Value) :
    SimpleLogger.destructEmit (applyAppends ⟨false, some buf, true⟩ values) =
      some (buf ++ renderedText values) ∧
    SimpleLogger.destructEmit (applyAppends ⟨true, some buf, true⟩ values) =
      some ((buf ++ renderedText values) ++ "\n") := by
  constructor
  · rw [applyAppends_valid values false buf]; rfl
  · rw [applyAppends_valid values true buf]; rfl

/-- Claim C7: operator<< is noexcept and fail-silent — the model is a total
function into the builder state, so no failure propagates to the caller; a
value whose formatting fails contributes nothing and leaves the builder
exactly as it was, so the chain continues with subsequent appends unaffected,
and the operator returns the same builder for chaining. -/
theorem append_swallows_failure (b : SimpleLogger) (v w : Value) (e : Exc)
    (hv : v.format = Except.error e) :
    b.opShl v = b ∧ (b.opShl v).opShl w = b.opShl w := by
  have h1 : b.opShl v = b := by
    cases hb : b.out_sync_stream_valid_ <;> simp [SimpleLogger.opShl, hb, hv]
  exact ⟨h1, by rw [h1]⟩

/-- Witness for C7: on a builder with a valid handle, a failing value is a
no-op and a following successful append still lands. -/
theorem append_swallows_failure_witness :
    (⟨Except.error ⟨"fmt"⟩⟩ : Value).format = Except.error ⟨"fmt"⟩ ∧
    (SimpleLogger.opShl ⟨true, some "W", true⟩ ⟨Except.error ⟨"fmt"⟩⟩ =
        ⟨true, some "W", true⟩ ∧
      SimpleLogger.opShl (SimpleLogger.opShl ⟨true, some "W", true⟩ ⟨Except.error ⟨"fmt"⟩⟩)
          ⟨Except.ok "x"⟩ =
        SimpleLogger.opShl ⟨true, some "W", true⟩ ⟨Except.ok "x"⟩) :=
  ⟨rfl, append_swallows_failure ⟨true, some "W", true⟩ ⟨Except.error ⟨"fmt"⟩⟩
    ⟨Except.ok "x"⟩ ⟨"fmt"⟩ rfl⟩

/-- Claim C8: SetOstream replaces the sink and recomputes the cached validity
together: the new validity holds exactly when the new sink is present and
reported healthy at installation time; SetOstream is total (never fails), an
absent or unhealthy sink just leaves the flag false; the registry invariant
that `out_stream_valid_` implies a present sink holds after installation,
after SetPrefixList, and initially. -/
theorem registry_invariant_install (reg : Registry) (o : Option Bool)
    (l : List PrefixFunction) :
    (SetOstream reg o).out_stream_ = o ∧
    ((SetOstream reg o).out_stream_valid_ = true ↔ o = some true) ∧
    ((SetOstream reg o).out_stream_valid_ = true →
      (SetOstream reg o).out_stream_.isSome = true) ∧
    (SetPrefixList reg l).out_stream_ = reg.out_stream_ ∧
    (SetPrefixList reg l).out_stream_valid_ = reg.out_stream_valid_ ∧
    initRegistry.out_stream_valid_ = false := by
  refine ⟨rfl, ?_, ?_, rfl, rfl, rfl⟩
  · cases o with
    | none => simp [SetOstream]
    | some g => cases g <;> simp [SetOstream]
  · intro h
    cases o with
    | none => simp [SetOstream] at h
    | some g => simp [SetOstream]

/-- Witness for C8: installing a present healthy sink over the initial
registry flips the flag, and the implications hold at that input. -/
theorem registry_invariant_install_witness :
    (SetOstream initRegistry (some true)).out_stream_ = some true ∧
    ((SetOstream initRegistry (some true)).out_stream_valid_ = true ↔
      (some true : Option Bool) = some true) ∧
    ((SetOstream initRegistry (some true)).out_stream_valid_ = true →
      (SetOstream initRegistry (some true)).out_stream_.isSome = true) ∧
    (SetPrefixList initRegistry []).out_stream_ = initRegistry.out_stream_ ∧
    (SetPrefixList initRegistry []).out_stream_valid_ = initRegistry.out_stream_valid_ ∧
    initRegistry.out_stream_valid_ = false :=
  registry_invariant_install initRegistry (some true) []

/-- Claim C10: each setter mutates only its own registry field: SetPrefixList
leaves the sink and its validity flag unchanged, and SetOstream leaves the
prefix-generator list unchanged. -/
theorem setters_frame (reg : Registry) (o : Option Bool) (l : List PrefixFunction) :
    (SetPrefixList reg l).out_stream_ = reg.out_stream_ ∧
    (SetPrefixList reg l).out_stream_valid_ = reg.out_stream_valid_ ∧
    (SetPrefixList reg l).prefix_function_list_ = l ∧
    (SetOstream reg o).prefix_function_list_ = reg.prefix_function_list_ :=
  ⟨rfl, rfl, rfl, rfl⟩

/-- Counterexample to C3 as stated: with a valid sink and a prefix generator
that throws, the exception is thrown after `out_sync_stream_valid_` was set,
so construction leaves the builder WITH a valid handle: a subsequent append
writes into the buffer (not a no-op) and the destructor still writes the
terminator — contradicting "left in the no-valid-handle state ... every
subsequent Append and the destructor's terminator write are no-ops". -/
theorem construction_exception_keeps_handle :
    (SimpleLogger.construct
        { prefix_function_list_ := [fun _ => Except.error ⟨"boom"⟩],
          out_stream_ := some true, out_stream_valid_ := true }
        0 (Except.ok ()) 0 true).1 = ⟨true, some "", true⟩ ∧
    (⟨true, some "", true⟩ : SimpleLogger).out_sync_stream_valid_ = true ∧
    SimpleLogger.opShl ⟨true, some "", true⟩ ⟨Except.ok "X"⟩ = ⟨true, some "X", true⟩ ∧
    SimpleLogger.destructEmit ⟨true, some "", true⟩ = some "\n" := by
  refine ⟨?_, rfl, ?_, rfl⟩
  · rfl
  · simp [SimpleLogger.opShl, String.empty_append]

/-- Claim C3 (amended): any std::exception during construction is caught
internally and reported to std::cerr, and construction returns normally. If
the allocation of the synchronized stream itself failed, the builder is left
in the no-valid-handle state for its whole life: appends are no-ops and
destruction transfers nothing. If the exception came after the allocation
succeeded (a prefix generator throwing; likewise the severity lookup), the
handle remains valid: the buffer keeps what was written before the throw,
subsequent appends still write, and destruction still transfers the buffer
with the terminator when newline is on. -/
theorem construction_failure_modes
    (reg : Registry) (world : Nat) (s : Nat) (nl : Bool)
    (e : Exc) (buf : String) (values : List Value)
    (hvalid : reg.out_stream_valid_ = true) :
    (SimpleLogger.construct reg world (Except.error e) s nl =
        (⟨nl, none, false⟩, [cerrLine e]) ∧
      applyAppends ⟨nl, none, false⟩ values = ⟨nl, none, false⟩ ∧
      SimpleLogger.destructEmit ⟨nl, none, false⟩ = none) ∧
    (writePrefixes world reg.prefix_function_list_ "" = (buf, some e) →
      SimpleLogger.construct reg world (Except.ok ()) s nl =
        (⟨nl, some buf, true⟩, [cerrLine e]) ∧
      applyAppends ⟨nl, some buf, true⟩ values =
        ⟨nl, some (buf ++ renderedText values), true⟩ ∧
      SimpleLogger.destructEmit ⟨nl, some (buf ++ renderedText values), true⟩ =
        some (if nl then buf ++ renderedText values ++ "\n"
          else buf ++ renderedText values)) := by
  constructor
  · refine ⟨?_, applyAppends_invalid values ⟨nl, none, false⟩ rfl, rfl⟩
    simp [SimpleLogger.construct, hvalid]
  · intro hw
    refine ⟨?_, applyAppends_valid values nl buf, ?_⟩
    · simp [SimpleLogger.construct, hvalid, hw]
    · cases nl <;> simp [SimpleLogger.destructEmit, String.append_assoc]

/-- Witness for the amended C3: a registry whose only generator throws; the
allocation-failure branch and the generator-throw branch both evaluated at
that input. -/
theorem construction_failure_modes_witness :
    ({ prefix_function_list_ := [fun _ => Except.error ⟨"boom"⟩],
       out_stream_ := some true, out_stream_valid_ := true } : Registry).out_stream_valid_
      = true ∧
    writePrefixes 0 [fun _ => Except.error ⟨"boom"⟩] "" = ("", some ⟨"boom"⟩) ∧
    SimpleLogger.construct
      { prefix_function_list_ := [fun _ => Except.error ⟨"boom"⟩],
        out_stream_ := some true, out_stream_valid_ := true }
      0 (Except.error ⟨"alloc"⟩) 0 true = (⟨true, none, false⟩, [cerrLine ⟨"alloc"⟩]) ∧
    SimpleLogger.construct
      { prefix_function_list_ := [fun _ => Except.error ⟨"boom"⟩],
        out_stream_ := some true, out_stream_valid_ := true }
      0 (Except.ok ()) 0 true = (⟨true, some "", true⟩, [cerrLine ⟨"boom"⟩]) :=
  ⟨rfl, rfl,
    (construction_failure_modes
      { prefix_function_list_ := [fun _ => Except.error ⟨"boom"⟩],
        out_stream_ := some true, out_stream_valid_ := true }
      0 0 true ⟨"alloc"⟩ "" [] rfl).1.1,
    ((construction_failure_modes
      { prefix_function_list_ := [fun _ => Except.error ⟨"boom"⟩],
        out_stream_ := some true, out_stream_valid_ := true }
      0 0 true ⟨"boom"⟩ "" [] rfl).2 rfl).1⟩

/-- Claim C9 is violated by the code: evaluating the lifetime model on the
trace "install a sink; a logger constructor binds a synchronized handle to
it; install another sink" shows `SetOstream` move-assigns `out_stream_` and
thereby destroys sink 0 immediately — while the live handle (0, 0) is still
bound to it (`destroyedWithLiveHandle = true`), since a logger holds no lock
between its constructor and destructor. The old sink is NOT torn down only
after no builder holds a handle into it. -/
theorem install_destroys_sink_with_live_handle :
    runSetup initialProc
      [SetupAction.setOstream true, SetupAction.constructLogger 0,
        SetupAction.setOstream true] =
      { nextSinkId := 2, current := some 1, currentValid := true, destroyed := [0]
        handles := [(0, 0)], destroyedWithLiveHandle := true } := by
  rfl
